import Mathlib

/-!
Shallow embedding of `tiger_mcp_server.py`, the validation-invocation and
result-aggregation core of the ck3-tiger MCP server.

The subprocess boundary (`subprocess.run`), the filesystem existence check
(`os.path.exists`), and JSON decoding of the validator's stdout into a list
of diagnostic records (`json.loads` plus field access) are modelled as
components of an explicit environment record `Env`.  Each tool function
returns, alongside its Python result dictionary (modelled as an inductive
mirroring the dictionary shapes the source builds), the list of subprocess
spawn requests it issued, each a command line paired with its timeout budget
in seconds.
-/

namespace TigerMCP

/-- One entry of a diagnostic's `locations` array: a JSON object whose
`path`, `line` and `column` fields may each be absent. -/
structure Location where
  path : Option String
  line : Option Nat
  column : Option Nat
  deriving DecidableEq

/-- One decoded diagnostic record from the validator's JSON output.
`severity`, `key` and `locations` may each be absent from the JSON object
(`dict.get` returns `None`); `extra` carries the remaining opaque fields
of the object so that distinct records with equal named fields stay
distinguishable. -/
structure Diagnostic where
  severity : Option String
  key : Option String
  locations : Option (List Location)
  extra : List (String × String)
  deriving DecidableEq

/-- Outcome of one `subprocess.run` call: normal completion with captured
streams, `subprocess.TimeoutExpired`, `FileNotFoundError` (executable not
found), or any other exception with its message. -/
inductive RunOutcome where
  | completed (stdout stderr : String)
  | timedOut
  | execNotFound
  | raised (msg : String)
  deriving DecidableEq

/-- The ambient effects of the server: the two environment-derived paths,
the filesystem existence oracle, the subprocess runner (command line and
timeout in seconds), and JSON decoding of stdout into diagnostics (a
decode failure carries the `json.JSONDecodeError` message). -/
structure Env where
  tigerPath : String
  modsBase : String
  pathExists : String → Bool
  run : List String → Nat → RunOutcome
  decode : String → Except String (List Diagnostic)

/-- A subprocess spawn request: command line and timeout budget (seconds). -/
abbrev Spawn := List String × Nat

/-- `os.path.join(MODS_BASE, f"<name>.mod")`. -/
def modDescriptor (modsBase name : String) : String :=
  modsBase ++ "/" ++ name ++ ".mod"

/-- `error.get("severity", "unknown")`. -/
def severityOf (d : Diagnostic) : String :=
  d.severity.getD "unknown"

/-- One step of building `errors_by_severity`: if the severity is already a
key, append the diagnostic to that bucket; otherwise add a fresh singleton
bucket at the end (dictionaries preserve insertion order). -/
def addToBucket : List (String × List Diagnostic) → String → Diagnostic →
    List (String × List Diagnostic)
  | [], s, d => [(s, [d])]
  | (k, l) :: rest, s, d =>
    if k = s then (k, l ++ [d]) :: rest
    else (k, l) :: addToBucket rest s d

/-- The `errors_by_severity` dictionary built by the loop in
`_run_tiger_and_parse`, as an ordered association list. -/
def bucketBySeverity (errors : List Diagnostic) : List (String × List Diagnostic) :=
  errors.foldl (fun m d => addToBucket m (severityOf d) d) []

/-- Dictionary lookup in the bucket map, defaulting to the empty bucket. -/
def bucketGet (m : List (String × List Diagnostic)) (s : String) : List Diagnostic :=
  match m with
  | [] => []
  | (k, l) :: rest => if k = s then l else bucketGet rest s

/-- Result dictionary of `_run_tiger_and_parse` (hence of `validate_mod`
and `validate_with_custom_config`): success with parsed diagnostics,
success for an empty clean run (which carries no `errors_by_severity`
key), a plain failure, or a failure that also carries the `stderr` text. -/
inductive TigerOutcome where
  | okParsed (valid : Bool) (totalErrors : Nat) (errors : List Diagnostic)
      (errorsBySeverity : List (String × List Diagnostic)) (summary : String)
  | okClean (valid : Bool) (totalErrors : Nat) (errors : List Diagnostic) (summary : String)
  | err (message : String)
  | errWithStderr (message : String) (stderr : String)
  deriving DecidableEq

/-- The `success` field of the result dictionary. -/
def TigerOutcome.success : TigerOutcome → Bool
  | .okParsed _ _ _ _ _ => true
  | .okClean _ _ _ _ => true
  | .err _ => false
  | .errWithStderr _ _ => false

/-- `full_result.get("errors", [])`. -/
def TigerOutcome.errorsList : TigerOutcome → List Diagnostic
  | .okParsed _ _ es _ _ => es
  | .okClean _ _ es _ => es
  | .err _ => []
  | .errWithStderr _ _ => []

/-- `_run_tiger_and_parse(mod_descriptor, extra_args)`. -/
def run_tiger_and_parse (env : Env) (mod_descriptor : String)
    (extra_args : List String) : TigerOutcome × List Spawn :=
  if env.pathExists mod_descriptor = false then
    (.err ("Mod file not found: " ++ mod_descriptor), [])
  else
    let command := [env.tigerPath, "--json", mod_descriptor] ++ extra_args
    match env.run command 120 with
    | .completed stdout stderr =>
      if stdout ≠ "" then
        match env.decode stdout with
        | .ok errors =>
          ((.okParsed (errors.length == 0) errors.length errors
            (bucketBySeverity errors) ("Found errors: " ++ toString errors.length)),
            [(command, 120)])
        | .error e => (.err ("JSON parsing error: " ++ e), [(command, 120)])
      else if stderr ≠ "" then
        (.errWithStderr "Tiger process produced an error" stderr, [(command, 120)])
      else
        (.okClean true 0 [] "No errors found", [(command, 120)])
    | .timedOut =>
      (.err "Validation took too long (120 second timeout)", [(command, 120)])
    | .execNotFound =>
      ((.err ("TIGER_PATH is incorrect or ck3-tiger.exe not found at: " ++ env.tigerPath)),
        [(command, 120)])
    | .raised msg => (.err ("Unexpected error: " ++ msg), [(command, 120)])

/-- `validate_mod(mod_name, show_vanilla_errors, show_other_mod_errors)`. -/
def validate_mod (env : Env) (mod_name : String)
    (show_vanilla_errors show_other_mod_errors : Bool) : TigerOutcome × List Spawn :=
  let mod_descriptor := modDescriptor env.modsBase mod_name
  let extra_args :=
    (if show_vanilla_errors then ["--show-vanilla"] else []) ++
    (if show_other_mod_errors then ["--show-mods"] else [])
  run_tiger_and_parse env mod_descriptor extra_args

/-- Result dictionary of `consolidate_errors`. -/
inductive ConsolidateOutcome where
  | ok (output : String)
  | err (message : String)
  | errWithStderr (message : String) (stderr : String)
  deriving DecidableEq

/-- The `success` field of a consolidate result. -/
def ConsolidateOutcome.success : ConsolidateOutcome → Bool
  | .ok _ => true
  | .err _ => false
  | .errWithStderr _ _ => false

/-- `consolidate_errors(mod_name)`. -/
def consolidate_errors (env : Env) (mod_name : String) : ConsolidateOutcome × List Spawn :=
  let mod_descriptor := modDescriptor env.modsBase mod_name
  if env.pathExists mod_descriptor = false then
    (.err ("Mod file not found: " ++ mod_descriptor), [])
  else
    let command := [env.tigerPath, mod_descriptor, "--consolidate"]
    match env.run command 120 with
    | .completed stdout stderr =>
      if stderr ≠ "" then
        (.errWithStderr "Tiger process produced an error" stderr, [(command, 120)])
      else
        (.ok stdout, [(command, 120)])
    | .timedOut =>
      (.err "Validation took too long (120 second timeout)", [(command, 120)])
    | .execNotFound =>
      ((.err ("TIGER_PATH is incorrect or ck3-tiger.exe not found at: " ++ env.tigerPath)),
        [(command, 120)])
    | .raised msg => (.err ("Unexpected error: " ++ msg), [(command, 120)])

/-- `validate_with_custom_config(mod_name, config_path)`. -/
def validate_with_custom_config (env : Env) (mod_name config_path : String) :
    TigerOutcome × List Spawn :=
  if env.pathExists config_path = false then
    (.err ("Configuration file not found: " ++ config_path), [])
  else
    run_tiger_and_parse env (modDescriptor env.modsBase mod_name)
      ["--config", config_path]

/-- `location.get("path") == file_path` (an absent `path` compares unequal
to any string). -/
def locationMatches (loc : Location) (file_path : String) : Bool :=
  loc.path == some file_path

/-- The inner loop of `validate_file`: the diagnostic is kept iff some
entry of `error.get("locations", [])` matches, and the `break` makes it
appear once however many entries match. -/
def diagnosticMatchesFile (d : Diagnostic) (file_path : String) : Bool :=
  (d.locations.getD []).any (fun loc => locationMatches loc file_path)

/-- The file-scoping filter of `validate_file`. -/
def filterByFile (errors : List Diagnostic) (file_path : String) : List Diagnostic :=
  errors.filter (fun d => diagnosticMatchesFile d file_path)

/-- Result dictionary of `validate_file`: its own success shape, or the
failing `validate_mod` result dictionary returned unchanged. -/
inductive FileOutcome where
  | ok (file : String) (valid : Bool) (errorsCount : Nat) (errors : List Diagnostic)
  | fail (result : TigerOutcome)
  deriving DecidableEq

/-- The `success` field of a `validate_file` result (a propagated failure
keeps the propagated dictionary's own field). -/
def FileOutcome.success : FileOutcome → Bool
  | .ok _ _ _ _ => true
  | .fail r => r.success

/-- `validate_file(file_path, mod_name)`. -/
def validate_file (env : Env) (file_path mod_name : String) : FileOutcome × List Spawn :=
  let fullR := validate_mod env mod_name false false
  if fullR.1.success = false then
    (.fail fullR.1, fullR.2)
  else
    let file_errors := filterByFile fullR.1.errorsList file_path
    ((.ok file_path (file_errors.length == 0) file_errors.length file_errors), fullR.2)

/-- `e.get("key") in ["syntax", "structure", "encoding"]` (an absent key is
`None`, which is not in the list). -/
def isSyntaxKey (d : Diagnostic) : Bool :=
  [some "syntax", some "structure", some "encoding"].contains d.key

/-- Model of `str(subprocess.TimeoutExpired(cmd, timeout))`. -/
def timeoutExpiredMsg (command : List String) (timeoutSec : Nat) : String :=
  "Command " ++ toString command ++ " timed out after " ++ toString timeoutSec ++ " seconds"

/-- Model of `str(FileNotFoundError)` for a missing executable. -/
def execNotFoundMsg (tigerPath : String) : String :=
  "No such file or directory: " ++ tigerPath

/-- Result dictionary of `check_syntax_only`. -/
inductive SyntaxOutcome where
  | ok (valid : Bool) (syntaxErrorsCount : Nat) (errors : List Diagnostic)
  | err (message : String)
  deriving DecidableEq

/-- The `success` field of a syntax-check result. -/
def SyntaxOutcome.success : SyntaxOutcome → Bool
  | .ok _ _ _ => true
  | .err _ => false

/-- `check_syntax_only(mod_name)`.  Every exception (timeout, missing
executable, JSON decode error, anything else) is caught by the one generic
handler and reported as `str(e)`. -/
def check_syntax_only (env : Env) (mod_name : String) : SyntaxOutcome × List Spawn :=
  let mod_descriptor := modDescriptor env.modsBase mod_name
  if env.pathExists mod_descriptor = false then
    (.err ("Mod file not found: " ++ mod_descriptor), [])
  else
    let command := [env.tigerPath, "--json", mod_descriptor]
    match env.run command 60 with
    | .completed stdout _stderr =>
      if stdout ≠ "" then
        match env.decode stdout with
        | .ok all_errors =>
          let syn_errors := all_errors.filter isSyntaxKey
          ((.ok (syn_errors.length == 0) syn_errors.length syn_errors), [(command, 60)])
        | .error e => (.err e, [(command, 60)])
      else
        (.ok true 0 [], [(command, 60)])
    | .timedOut => (.err (timeoutExpiredMsg command 60), [(command, 60)])
    | .execNotFound => (.err (execNotFoundMsg env.tigerPath), [(command, 60)])
    | .raised msg => (.err msg, [(command, 60)])

/-! Concrete fixtures used to exercise the tool functions on closed inputs. -/

/-- A location inside `a.txt`. -/
def locA : Location := { path := some "a.txt", line := some 3, column := some 1 }

/-- A location inside `b.txt`. -/
def locB : Location := { path := some "b.txt", line := none, column := none }

/-- A syntax-class error diagnostic located in `a.txt`. -/
def dErr : Diagnostic :=
  { severity := some "error", key := some "syntax", locations := some [locA], extra := [] }

/-- A non-syntax warning diagnostic with two locations. -/
def dWarn : Diagnostic :=
  { severity := some "warning", key := some "logic", locations := some [locB, locA], extra := [] }

/-- A diagnostic with every named field absent. -/
def dBare : Diagnostic :=
  { severity := none, key := none, locations := none, extra := [("note", "x")] }

/-- A sample decoded diagnostic sequence. -/
def sampleErrors : List Diagnostic := [dErr, dWarn, dBare]

/-- Environment whose validator emits JSON that decodes to `sampleErrors`. -/
def envOkJson : Env :=
  { tigerPath := "tiger", modsBase := "mods",
    pathExists := fun _ => true,
    run := fun _ _ => .completed "JSONOUT" "",
    decode := fun s => if s = "JSONOUT" then .ok sampleErrors else .error "bad" }

/-- Environment in which no path exists. -/
def envNoFiles : Env :=
  { tigerPath := "tiger", modsBase := "mods",
    pathExists := fun _ => false,
    run := fun _ _ => .completed "" "",
    decode := fun _ => .error "unused" }

/-- Environment whose validator prints nothing on stdout and a message on
stderr. -/
def envStderrOnly : Env :=
  { tigerPath := "tiger", modsBase := "mods",
    pathExists := fun _ => true,
    run := fun _ _ => .completed "" "boom",
    decode := fun _ => .error "unused" }

/-- Environment whose validator writes to both streams. -/
def envBothStreams : Env :=
  { tigerPath := "tiger", modsBase := "mods",
    pathExists := fun _ => true,
    run := fun _ _ => .completed "OUT" "warn",
    decode := fun _ => .error "unused" }

/-- Environment in which every subprocess run exceeds its budget. -/
def envTimesOut : Env :=
  { tigerPath := "tiger", modsBase := "mods",
    pathExists := fun _ => true,
    run := fun _ _ => .timedOut,
    decode := fun _ => .error "unused" }

/-! Lemmas about the severity-bucketing dictionary. -/

/-- Adding a diagnostic under severity `sev` appends it at the end of the
`sev` bucket and leaves every other bucket unchanged. -/
theorem bucketGet_addToBucket (m : List (String × List Diagnostic))
    (sev s : String) (d : Diagnostic) :
    bucketGet (addToBucket m sev d) s =
      if s = sev then bucketGet m s ++ [d] else bucketGet m s := by
  induction m with
  | nil =>
    by_cases h : s = sev
    · subst h; simp [addToBucket, bucketGet]
    · have h' : ¬(sev = s) := fun e => h e.symm
      simp [addToBucket, bucketGet, h, h']
  | cons p rest ih =>
    obtain ⟨k, l⟩ := p
    by_cases hk : k = sev
    · subst hk
      by_cases hs : s = k
      · subst hs
        simp [addToBucket, bucketGet]
      · have hs' : ¬(k = s) := fun e => hs e.symm
        simp [addToBucket, bucketGet, hs, hs']
    · by_cases hs : s = k
      · subst hs
        simp [addToBucket, bucketGet, hk]
      · have hs' : ¬(k = s) := fun e => hs e.symm
        simp [addToBucket, bucketGet, hk, hs', ih]

/-- The keys of the bucket map after an insertion: unchanged when the
severity is already present, otherwise extended at the end. -/
theorem keys_addToBucket (m : List (String × List Diagnostic)) (sev : String)
    (d : Diagnostic) :
    (addToBucket m sev d).map Prod.fst =
      if sev ∈ m.map Prod.fst then m.map Prod.fst else m.map Prod.fst ++ [sev] := by
  induction m with
  | nil => simp [addToBucket]
  | cons p rest ih =>
    obtain ⟨k, l⟩ := p
    by_cases hk : k = sev
    · subst hk; simp [addToBucket]
    · have hk' : ¬(sev = k) := fun e => hk e.symm
      by_cases hmem : sev ∈ rest.map Prod.fst <;>
        simp [addToBucket, hk, hk', hmem, ih]

/-- Insertion preserves distinctness of the bucket keys. -/
theorem keys_nodup_addToBucket {m : List (String × List Diagnostic)} (sev : String)
    (d : Diagnostic) (h : (m.map Prod.fst).Nodup) :
    ((addToBucket m sev d).map Prod.fst).Nodup := by
  rw [keys_addToBucket]
  by_cases hmem : sev ∈ m.map Prod.fst
  · simpa [hmem] using h
  · have happ : ((m.map Prod.fst) ++ [sev]).Nodup := by
      simp [List.nodup_append, h, hmem]
    simpa [hmem] using happ

/-- The bucket keys of `errors_by_severity` are pairwise distinct. -/
theorem bucketBySeverity_keys_nodup (es : List Diagnostic) :
    ((bucketBySeverity es).map Prod.fst).Nodup := by
  suffices h : ∀ acc : List (String × List Diagnostic), (acc.map Prod.fst).Nodup →
      (((es.foldl (fun m d => addToBucket m (severityOf d) d) acc)).map Prod.fst).Nodup by
    exact h [] (by simp)
  induction es with
  | nil => intro acc hacc; simpa using hacc
  | cons d es ih =>
    intro acc hacc
    exact ih _ (keys_nodup_addToBucket _ _ hacc)

/-- Insertion adds exactly the inserted diagnostic to the multiset of all
bucket contents. -/
theorem join_addToBucket (m : List (String × List Diagnostic)) (sev : String)
    (d : Diagnostic) :
    (((addToBucket m sev d).map Prod.snd).flatten).Perm (((m.map Prod.snd).flatten) ++ [d]) := by
  induction m with
  | nil =>
    simp [addToBucket]
  | cons p rest ih =>
    obtain ⟨k, l⟩ := p
    by_cases hk : k = sev
    · subst hk
      have ha : addToBucket ((k, l) :: rest) k d = (k, l ++ [d]) :: rest := by
        simp [addToBucket]
      rw [ha]
      simp only [List.map_cons, List.flatten_cons]
      have e1 : (l ++ [d]) ++ ((rest.map Prod.snd).flatten)
          = l ++ ([d] ++ (rest.map Prod.snd).flatten) := by simp
      have p1 : ([d] ++ (rest.map Prod.snd).flatten).Perm
          ((rest.map Prod.snd).flatten ++ [d]) := List.perm_append_comm
      have e2 : l ++ ((rest.map Prod.snd).flatten ++ [d])
          = (l ++ (rest.map Prod.snd).flatten) ++ [d] := by simp
      rw [e1, ← e2]
      exact List.Perm.append_left l p1
    · have ha : addToBucket ((k, l) :: rest) sev d = (k, l) :: addToBucket rest sev d := by
        simp [addToBucket, hk]
      rw [ha]
      simp only [List.map_cons, List.flatten_cons]
      have e2 : l ++ ((rest.map Prod.snd).flatten ++ [d])
          = (l ++ (rest.map Prod.snd).flatten) ++ [d] := by simp
      rw [← e2]
      exact List.Perm.append_left l ih

/-- The multiset of all bucket contents of `errors_by_severity` is exactly
the original diagnostic sequence. -/
theorem bucketBySeverity_join_perm (es : List Diagnostic) :
    ((((bucketBySeverity es)).map Prod.snd).flatten).Perm es := by
  suffices h : ∀ acc : List (String × List Diagnostic),
      ((((es.foldl (fun m d => addToBucket m (severityOf d) d) acc)).map Prod.snd).flatten).Perm
        (((acc.map Prod.snd).flatten) ++ es) by
    simpa [bucketBySeverity] using h []
  induction es with
  | nil => intro acc; simp
  | cons d es ih =>
    intro acc
    have h1 := ih (addToBucket acc (severityOf d) d)
    have h2 := (join_addToBucket acc (severityOf d) d).append_right es
    have h3 : (((acc.map Prod.snd).flatten) ++ [d]) ++ es =
        ((acc.map Prod.snd).flatten) ++ (d :: es) := by simp
    rw [List.foldl_cons]
    rw [← h3]
    exact h1.trans h2

/-- Each bucket of `errors_by_severity` is the ordered subsequence of the
input carrying that severity (with the `"unknown"` default applied). -/
theorem bucketGet_bucketBySeverity (es : List Diagnostic) (s : String) :
    bucketGet (bucketBySeverity es) s = es.filter (fun d => severityOf d == s) := by
  suffices h : ∀ (acc : List (String × List Diagnostic)),
      bucketGet (es.foldl (fun m d => addToBucket m (severityOf d) d) acc) s =
        bucketGet acc s ++ es.filter (fun d => severityOf d == s) by
    simpa [bucketBySeverity, bucketGet] using h []
  induction es with
  | nil => intro acc; simp [bucketGet]
  | cons d es ih =>
    intro acc
    rw [List.foldl_cons, ih, bucketGet_addToBucket]
    by_cases h : s = severityOf d
    · rw [if_pos h]
      have hb : (severityOf d == s) = true := by simp [h]
      simp [List.filter_cons, hb, List.append_assoc]
    · rw [if_neg h]
      have hb : (severityOf d == s) = false := by
        rw [beq_eq_false_iff_ne]; exact fun e => h e.symm
      simp [List.filter_cons, hb]

/-- C2: for every decoded diagnostic sequence, `validate_mod` reports
`errors_by_severity = bucketBySeverity es`, every bucket is the ordered
subsequence of diagnostics whose severity (defaulting to `"unknown"` when
absent) equals the bucket key, the bucket keys are pairwise distinct (so
the buckets are disjoint), and the buckets' contents joined are a
permutation of the original sequence. -/
theorem validate_mod_severity_partition (env : Env) (mod_name : String)
    (sv sm : Bool) (out errtxt : String) (es : List Diagnostic)
    (hmod : env.pathExists (modDescriptor env.modsBase mod_name) = true)
    (hrun : env.run ([env.tigerPath, "--json", modDescriptor env.modsBase mod_name] ++
      ((if sv then ["--show-vanilla"] else []) ++ (if sm then ["--show-mods"] else []))) 120 =
      .completed out errtxt)
    (hout : out ≠ "") (hdec : env.decode out = Except.ok es) :
    (validate_mod env mod_name sv sm).1 =
      .okParsed (es.length == 0) es.length es (bucketBySeverity es)
        ("Found errors: " ++ toString es.length) ∧
    (∀ s, bucketGet (bucketBySeverity es) s = es.filter (fun d => severityOf d == s)) ∧
    ((bucketBySeverity es).map Prod.fst).Nodup ∧
    ((((bucketBySeverity es)).map Prod.snd).flatten).Perm es := by
  refine ⟨?_, fun s => bucketGet_bucketBySeverity es s,
    bucketBySeverity_keys_nodup es, bucketBySeverity_join_perm es⟩
  simp only [List.cons_append, List.nil_append] at hrun
  simp [validate_mod, run_tiger_and_parse, hmod, hrun, hout, hdec]

/-- Witness for C2 at a concrete environment and diagnostic sequence. -/
theorem validate_mod_severity_partition_witness :
    (validate_mod envOkJson "m" false false).1 =
      .okParsed (sampleErrors.length == 0) sampleErrors.length sampleErrors
        (bucketBySeverity sampleErrors)
        ("Found errors: " ++ toString sampleErrors.length) ∧
    (∀ s, bucketGet (bucketBySeverity sampleErrors) s =
      sampleErrors.filter (fun d => severityOf d == s)) ∧
    ((bucketBySeverity sampleErrors).map Prod.fst).Nodup ∧
    ((((bucketBySeverity sampleErrors)).map Prod.snd).flatten).Perm sampleErrors :=
  validate_mod_severity_partition envOkJson "m" false false "JSONOUT" "" sampleErrors
    rfl rfl (by decide) rfl

/-- C8: re-filtering an already file-scoped diagnostic list by the same
path is a no-op. -/
theorem filterByFile_idempotent (errors : List Diagnostic) (file_path : String) :
    filterByFile (filterByFile errors file_path) file_path =
      filterByFile errors file_path := by
  simp [filterByFile, List.filter_filter]

/-- C3: when the mod descriptor does not exist, each of the four
descriptor-consuming tools fails, names a path that does not exist, and
spawns no subprocess. -/
theorem missing_descriptor_no_spawn (env : Env) (mod_name config_path : String)
    (sv sm : Bool)
    (h : env.pathExists (modDescriptor env.modsBase mod_name) = false) :
    validate_mod env mod_name sv sm =
      (.err ("Mod file not found: " ++ modDescriptor env.modsBase mod_name), []) ∧
    consolidate_errors env mod_name =
      (.err ("Mod file not found: " ++ modDescriptor env.modsBase mod_name), []) ∧
    check_syntax_only env mod_name =
      (.err ("Mod file not found: " ++ modDescriptor env.modsBase mod_name), []) ∧
    validate_with_custom_config env mod_name config_path =
      (if env.pathExists config_path then
        (.err ("Mod file not found: " ++ modDescriptor env.modsBase mod_name), [])
      else
        (.err ("Configuration file not found: " ++ config_path), [])) := by
  refine ⟨?_, ?_, ?_, ?_⟩
  · simp [validate_mod, run_tiger_and_parse, h]
  · simp [consolidate_errors, h]
  · simp [check_syntax_only, h]
  · by_cases hc : env.pathExists config_path <;>
      simp [validate_with_custom_config, run_tiger_and_parse, h, hc]

/-- Witness for C3 in an environment where no path exists. -/
theorem missing_descriptor_no_spawn_witness :
    validate_mod envNoFiles "m" false false =
      (.err ("Mod file not found: " ++ modDescriptor envNoFiles.modsBase "m"), []) ∧
    consolidate_errors envNoFiles "m" =
      (.err ("Mod file not found: " ++ modDescriptor envNoFiles.modsBase "m"), []) ∧
    check_syntax_only envNoFiles "m" =
      (.err ("Mod file not found: " ++ modDescriptor envNoFiles.modsBase "m"), []) ∧
    validate_with_custom_config envNoFiles "m" "tiger.conf" =
      (if envNoFiles.pathExists "tiger.conf" then
        (.err ("Mod file not found: " ++ modDescriptor envNoFiles.modsBase "m"), [])
      else
        (.err ("Configuration file not found: " ++ "tiger.conf"), [])) :=
  missing_descriptor_no_spawn envNoFiles "m" "tiger.conf" false false rfl

/-- C9: when the underlying full validation fails, `validate_file` returns
that failing result dictionary unchanged (with the same spawn history);
moreover `validate_file` succeeds exactly when `validate_mod` does, so it
introduces no failure modes of its own. -/
theorem validate_file_propagates_failure (env : Env) (file_path mod_name : String)
    (h : ((validate_mod env mod_name false false).1).success = false) :
    validate_file env file_path mod_name =
      (.fail (validate_mod env mod_name false false).1,
        (validate_mod env mod_name false false).2) ∧
    ∀ (env' : Env) (fp mn : String),
      ((validate_file env' fp mn).1).success =
        ((validate_mod env' mn false false).1).success := by
  constructor
  · simp [validate_file, h]
  · intro env' fp mn
    by_cases hs : ((validate_mod env' mn false false).1).success = false
    · simp [validate_file, hs, FileOutcome.success]
    · have hs' : ((validate_mod env' mn false false).1).success = true := by
        revert hs; cases ((validate_mod env' mn false false).1).success <;> simp
      simp [validate_file, hs', FileOutcome.success]

/-- Witness for C9: a missing descriptor makes `validate_mod` fail and
`validate_file` hands back the identical dictionary. -/
theorem validate_file_propagates_failure_witness :
    validate_file envNoFiles "a.txt" "m" =
      (.fail (validate_mod envNoFiles "m" false false).1,
        (validate_mod envNoFiles "m" false false).2) ∧
    ∀ (env' : Env) (fp mn : String),
      ((validate_file env' fp mn).1).success =
        ((validate_mod env' mn false false).1).success :=
  validate_file_propagates_failure envNoFiles "a.txt" "m" rfl

/-- Counting occurrences after a filter: occurrences are kept exactly when
the element satisfies the predicate. -/
theorem count_filter_eq (p : Diagnostic → Bool) (l : List Diagnostic) (d : Diagnostic) :
    (l.filter p).count d = if p d then l.count d else 0 := by
  by_cases h : p d
  · rw [if_pos h]
    induction l with
    | nil => simp
    | cons a l ih =>
      by_cases hpa : p a
      · simp [List.filter_cons, hpa, List.count_cons, ih]
      · have hda : ¬(d = a) := fun e => hpa (e ▸ h)
        have hda' : ¬(a = d) := fun e => hda e.symm
        simp [List.filter_cons, hpa, List.count_cons, ih, hda, hda']
  · rw [if_neg h, List.count_eq_zero]
    intro hmem
    rw [List.mem_filter] at hmem
    exact h hmem.2

/-- C4: on a successful decode, `validate_file` returns exactly the
diagnostics having at least one location whose `path` equals the given
path by string equality, each occurrence kept exactly once however many
of its locations match. -/
theorem validate_file_scoping (env : Env) (file_path mod_name : String)
    (out errtxt : String) (es : List Diagnostic)
    (hmod : env.pathExists (modDescriptor env.modsBase mod_name) = true)
    (hrun : env.run [env.tigerPath, "--json", modDescriptor env.modsBase mod_name] 120 =
      .completed out errtxt)
    (hout : out ≠ "") (hdec : env.decode out = Except.ok es) :
    (validate_file env file_path mod_name).1 =
      .ok file_path ((filterByFile es file_path).length == 0)
        (filterByFile es file_path).length (filterByFile es file_path) ∧
    (∀ d : Diagnostic, d ∈ filterByFile es file_path ↔
      d ∈ es ∧ ∃ loc ∈ d.locations.getD [], loc.path = some file_path) ∧
    (∀ d : Diagnostic, (filterByFile es file_path).count d =
      if diagnosticMatchesFile d file_path then es.count d else 0) := by
  refine ⟨?_, ?_, ?_⟩
  · simp [validate_file, validate_mod, run_tiger_and_parse, hmod, hrun, hout, hdec,
      TigerOutcome.success, TigerOutcome.errorsList]
  · intro d
    simp [filterByFile, List.mem_filter, diagnosticMatchesFile, locationMatches,
      List.any_eq_true]
  · intro d
    simpa [filterByFile] using
      count_filter_eq (fun x => diagnosticMatchesFile x file_path) es d

/-- Witness for C4 at a concrete environment: scoping `sampleErrors` by
`"a.txt"`. -/
theorem validate_file_scoping_witness :
    (validate_file envOkJson "a.txt" "m").1 =
      .ok "a.txt" ((filterByFile sampleErrors "a.txt").length == 0)
        (filterByFile sampleErrors "a.txt").length (filterByFile sampleErrors "a.txt") ∧
    (∀ d : Diagnostic, d ∈ filterByFile sampleErrors "a.txt" ↔
      d ∈ sampleErrors ∧ ∃ loc ∈ d.locations.getD [], loc.path = some "a.txt") ∧
    (∀ d : Diagnostic, (filterByFile sampleErrors "a.txt").count d =
      if diagnosticMatchesFile d "a.txt" then sampleErrors.count d else 0) :=
  validate_file_scoping envOkJson "a.txt" "m" "JSONOUT" "" sampleErrors
    rfl rfl (by decide) rfl

/-- C5: on a successful decode, `check_syntax_only` returns exactly the
diagnostics whose `key` is one of the hardcoded values `"syntax"`,
`"structure"`, `"encoding"`, in original order (the result is a
subsequence of the input), and never a diagnostic with an absent key. -/
theorem check_syntax_only_scoping (env : Env) (mod_name : String)
    (out errtxt : String) (es : List Diagnostic)
    (hmod : env.pathExists (modDescriptor env.modsBase mod_name) = true)
    (hrun : env.run [env.tigerPath, "--json", modDescriptor env.modsBase mod_name] 60 =
      .completed out errtxt)
    (hout : out ≠ "") (hdec : env.decode out = Except.ok es) :
    (check_syntax_only env mod_name).1 =
      .ok ((es.filter isSyntaxKey).length == 0) (es.filter isSyntaxKey).length
        (es.filter isSyntaxKey) ∧
    (∀ d : Diagnostic, d ∈ es.filter isSyntaxKey ↔
      d ∈ es ∧ (d.key = some "syntax" ∨ d.key = some "structure" ∨
        d.key = some "encoding")) ∧
    (es.filter isSyntaxKey).Sublist es ∧
    (∀ d ∈ es.filter isSyntaxKey, d.key ≠ none) := by
  refine ⟨?_, ?_, List.filter_sublist es, ?_⟩
  · simp [check_syntax_only, hmod, hrun, hout, hdec]
  · intro d
    simp [List.mem_filter, isSyntaxKey]
  · intro d hd hnone
    rw [List.mem_filter] at hd
    have := hd.2
    rw [isSyntaxKey, hnone] at this
    simp at this

/-- Witness for C5 at a concrete environment: only `dErr` has a syntax
key inside `sampleErrors`. -/
theorem check_syntax_only_scoping_witness :
    (check_syntax_only envOkJson "m").1 =
      .ok ((sampleErrors.filter isSyntaxKey).length == 0)
        (sampleErrors.filter isSyntaxKey).length (sampleErrors.filter isSyntaxKey) ∧
    (∀ d : Diagnostic, d ∈ sampleErrors.filter isSyntaxKey ↔
      d ∈ sampleErrors ∧ (d.key = some "syntax" ∨ d.key = some "structure" ∨
        d.key = some "encoding")) ∧
    (sampleErrors.filter isSyntaxKey).Sublist sampleErrors ∧
    (∀ d ∈ sampleErrors.filter isSyntaxKey, d.key ≠ none) :=
  check_syntax_only_scoping envOkJson "m" "JSONOUT" "" sampleErrors
    rfl rfl (by decide) rfl

/-- C10: on a successful decode, the `valid` flag of `check_syntax_only`
is true exactly when the input contains no syntax-class diagnostic, no
matter what other diagnostics it contains, and every non-syntax-class
diagnostic is omitted from the returned list. -/
theorem check_syntax_only_valid_flag (env : Env) (mod_name : String)
    (out errtxt : String) (es : List Diagnostic)
    (hmod : env.pathExists (modDescriptor env.modsBase mod_name) = true)
    (hrun : env.run [env.tigerPath, "--json", modDescriptor env.modsBase mod_name] 60 =
      .completed out errtxt)
    (hout : out ≠ "") (hdec : env.decode out = Except.ok es) :
    (check_syntax_only env mod_name).1 =
      .ok ((es.filter isSyntaxKey).length == 0) (es.filter isSyntaxKey).length
        (es.filter isSyntaxKey) ∧
    (((es.filter isSyntaxKey).length == 0) = true ↔
      ∀ d ∈ es, isSyntaxKey d = false) ∧
    (∀ d ∈ es, isSyntaxKey d = false → d ∉ es.filter isSyntaxKey) := by
  refine ⟨?_, ?_, ?_⟩
  · simp [check_syntax_only, hmod, hrun, hout, hdec]
  · simp [List.length_eq_zero, List.filter_eq_nil_iff]
  · intro d _ hfalse hmem
    rw [List.mem_filter] at hmem
    rw [hfalse] at hmem
    exact Bool.false_ne_true hmem.2

/-- Witness for C10: `sampleErrors` contains one syntax-class diagnostic
and two others, so `valid` is false. -/
theorem check_syntax_only_valid_flag_witness :
    (check_syntax_only envOkJson "m").1 =
      .ok ((sampleErrors.filter isSyntaxKey).length == 0)
        (sampleErrors.filter isSyntaxKey).length (sampleErrors.filter isSyntaxKey) ∧
    (((sampleErrors.filter isSyntaxKey).length == 0) = true ↔
      ∀ d ∈ sampleErrors, isSyntaxKey d = false) ∧
    (∀ d ∈ sampleErrors, isSyntaxKey d = false →
      d ∉ sampleErrors.filter isSyntaxKey) :=
  check_syntax_only_valid_flag envOkJson "m" "JSONOUT" "" sampleErrors
    rfl rfl (by decide) rfl

/-- C1 counterexample: in an environment whose subprocess run completes
with empty stdout and the non-empty stderr `"boom"`, `check_syntax_only`
returns a success dictionary (`valid = true`, no errors), not a failure
carrying the stderr text. -/
theorem check_syntax_only_ignores_stderr_cex :
    envStderrOnly.run ["tiger", "--json", modDescriptor "mods" "m"] 60 =
      .completed "" "boom" ∧
    ("boom" : String) ≠ "" ∧
    (check_syntax_only envStderrOnly "m").1 = .ok true 0 [] ∧
    ((check_syntax_only envStderrOnly "m").1).success = true :=
  ⟨rfl, by decide, rfl, rfl⟩

/-- C1 amended: for `validate_mod` and `validate_with_custom_config`, a
completed run with empty stdout and non-empty stderr yields the failure
dictionary carrying the stderr text unchanged; `check_syntax_only`,
however, treats any empty-stdout completion as a clean success and
ignores stderr. -/
theorem stderr_precedence_amended (env : Env) (mod_name config_path : String)
    (sv sm : Bool) (e : String)
    (hmod : env.pathExists (modDescriptor env.modsBase mod_name) = true)
    (hcfg : env.pathExists config_path = true)
    (hrunFull : env.run ([env.tigerPath, "--json", modDescriptor env.modsBase mod_name] ++
      ((if sv then ["--show-vanilla"] else []) ++ (if sm then ["--show-mods"] else []))) 120 =
      .completed "" e)
    (hrunCfg : env.run [env.tigerPath, "--json", modDescriptor env.modsBase mod_name,
      "--config", config_path] 120 = .completed "" e)
    (hrunSyn : env.run [env.tigerPath, "--json", modDescriptor env.modsBase mod_name] 60 =
      .completed "" e)
    (he : e ≠ "") :
    (validate_mod env mod_name sv sm).1 =
      .errWithStderr "Tiger process produced an error" e ∧
    (validate_with_custom_config env mod_name config_path).1 =
      .errWithStderr "Tiger process produced an error" e ∧
    (check_syntax_only env mod_name).1 = .ok true 0 [] := by
  simp only [List.cons_append, List.nil_append] at hrunFull
  refine ⟨?_, ?_, ?_⟩
  · simp [validate_mod, run_tiger_and_parse, hmod, hrunFull, he]
  · simp [validate_with_custom_config, run_tiger_and_parse, hmod, hcfg, hrunCfg, he]
  · simp [check_syntax_only, hmod, hrunSyn]

/-- Witness for the amended C1: the validator writes `"boom"` to stderr
and nothing to stdout. -/
theorem stderr_precedence_amended_witness :
    (validate_mod envStderrOnly "m" false false).1 =
      .errWithStderr "Tiger process produced an error" "boom" ∧
    (validate_with_custom_config envStderrOnly "m" "tiger.conf").1 =
      .errWithStderr "Tiger process produced an error" "boom" ∧
    (check_syntax_only envStderrOnly "m").1 = .ok true 0 [] :=
  stderr_precedence_amended envStderrOnly "m" "tiger.conf" false false "boom"
    rfl rfl rfl rfl rfl (by decide)

/-- C6 counterexample: in an environment whose consolidate run completes
with non-empty stdout `"OUT"` and non-empty stderr `"warn"`,
`consolidate_errors` returns a failure, not a success carrying the
stdout text. -/
theorem consolidate_errors_stderr_cex :
    envBothStreams.run ["tiger", modDescriptor "mods" "m", "--consolidate"] 120 =
      .completed "OUT" "warn" ∧
    ("OUT" : String) ≠ "" ∧
    (consolidate_errors envBothStreams "m").1 =
      .errWithStderr "Tiger process produced an error" "warn" ∧
    ((consolidate_errors envBothStreams "m").1).success = false :=
  ⟨rfl, by decide, rfl, rfl⟩

/-- C6 amended: on a completed consolidate run the stdout text bypasses
JSON decoding and is returned raw, but only when stderr is empty; any
non-empty stderr yields the failure dictionary carrying it, regardless of
stdout. The result never depends on the JSON decoder. -/
theorem consolidate_errors_raw_text (env : Env) (mod_name : String)
    (stdout stderr : String)
    (hmod : env.pathExists (modDescriptor env.modsBase mod_name) = true)
    (hrun : env.run [env.tigerPath, modDescriptor env.modsBase mod_name,
      "--consolidate"] 120 = .completed stdout stderr) :
    consolidate_errors env mod_name =
      (if stderr = "" then
        (.ok stdout,
          [([env.tigerPath, modDescriptor env.modsBase mod_name, "--consolidate"], 120)])
      else
        (.errWithStderr "Tiger process produced an error" stderr,
          [([env.tigerPath, modDescriptor env.modsBase mod_name, "--consolidate"], 120)])) ∧
    (∀ dec : String → Except String (List Diagnostic),
      consolidate_errors { env with decode := dec } mod_name =
        consolidate_errors env mod_name) := by
  constructor
  · by_cases hs : stderr = "" <;> simp [consolidate_errors, hmod, hrun, hs]
  · intro dec
    rfl

/-- Witness for the amended C6 at a run writing to both streams. -/
theorem consolidate_errors_raw_text_witness :
    consolidate_errors envBothStreams "m" =
      (if ("warn" : String) = "" then
        (.ok "OUT",
          [([envBothStreams.tigerPath, modDescriptor envBothStreams.modsBase "m",
            "--consolidate"], 120)])
      else
        (.errWithStderr "Tiger process produced an error" "warn",
          [([envBothStreams.tigerPath, modDescriptor envBothStreams.modsBase "m",
            "--consolidate"], 120)])) ∧
    (∀ dec : String → Except String (List Diagnostic),
      consolidate_errors { envBothStreams with decode := dec } "m" =
        consolidate_errors envBothStreams "m") :=
  consolidate_errors_raw_text envBothStreams "m" "OUT" "warn" rfl rfl

/-- C7: the full-validate, custom-config and consolidate invocations are
spawned with a 120-second budget and the syntax-only invocation with a
60-second budget, and whenever a run at its budget times out the call
returns a timeout failure dictionary, never any success. -/
theorem timeout_budgets (env : Env) (mod_name config_path : String) (sv sm : Bool)
    (hmod : env.pathExists (modDescriptor env.modsBase mod_name) = true)
    (hcfg : env.pathExists config_path = true)
    (h120 : ∀ c : List String, env.run c 120 = .timedOut)
    (h60 : ∀ c : List String, env.run c 60 = .timedOut) :
    validate_mod env mod_name sv sm =
      (.err "Validation took too long (120 second timeout)",
        [([env.tigerPath, "--json", modDescriptor env.modsBase mod_name] ++
          ((if sv then ["--show-vanilla"] else []) ++
            (if sm then ["--show-mods"] else [])), 120)]) ∧
    validate_with_custom_config env mod_name config_path =
      (.err "Validation took too long (120 second timeout)",
        [([env.tigerPath, "--json", modDescriptor env.modsBase mod_name,
          "--config", config_path], 120)]) ∧
    consolidate_errors env mod_name =
      (.err "Validation took too long (120 second timeout)",
        [([env.tigerPath, modDescriptor env.modsBase mod_name, "--consolidate"], 120)]) ∧
    check_syntax_only env mod_name =
      (.err (timeoutExpiredMsg
          [env.tigerPath, "--json", modDescriptor env.modsBase mod_name] 60),
        [([env.tigerPath, "--json", modDescriptor env.modsBase mod_name], 60)]) ∧
    (TigerOutcome.err "Validation took too long (120 second timeout)").success = false ∧
    (ConsolidateOutcome.err "Validation took too long (120 second timeout)").success
      = false ∧
    (SyntaxOutcome.err (timeoutExpiredMsg
      [env.tigerPath, "--json", modDescriptor env.modsBase mod_name] 60)).success
      = false := by
  refine ⟨?_, ?_, ?_, ?_, rfl, rfl, rfl⟩
  · simp [validate_mod, run_tiger_and_parse, hmod, h120]
  · simp [validate_with_custom_config, run_tiger_and_parse, hmod, hcfg, h120]
  · simp [consolidate_errors, hmod, h120]
  · simp [check_syntax_only, hmod, h60]

/-- Witness for C7 in an environment where every run times out. -/
theorem timeout_budgets_witness :
    validate_mod envTimesOut "m" false false =
      (.err "Validation took too long (120 second timeout)",
        [([envTimesOut.tigerPath, "--json", modDescriptor envTimesOut.modsBase "m"] ++
          ((if false then ["--show-vanilla"] else []) ++
            (if false then ["--show-mods"] else [])), 120)]) ∧
    validate_with_custom_config envTimesOut "m" "tiger.conf" =
      (.err "Validation took too long (120 second timeout)",
        [([envTimesOut.tigerPath, "--json", modDescriptor envTimesOut.modsBase "m",
          "--config", "tiger.conf"], 120)]) ∧
    consolidate_errors envTimesOut "m" =
      (.err "Validation took too long (120 second timeout)",
        [([envTimesOut.tigerPath, modDescriptor envTimesOut.modsBase "m",
          "--consolidate"], 120)]) ∧
    check_syntax_only envTimesOut "m" =
      (.err (timeoutExpiredMsg
          [envTimesOut.tigerPath, "--json", modDescriptor envTimesOut.modsBase "m"] 60),
        [([envTimesOut.tigerPath, "--json", modDescriptor envTimesOut.modsBase "m"], 60)]) ∧
    (TigerOutcome.err "Validation took too long (120 second timeout)").success = false ∧
    (ConsolidateOutcome.err "Validation took too long (120 second timeout)").success
      = false ∧
    (SyntaxOutcome.err (timeoutExpiredMsg
      [envTimesOut.tigerPath, "--json", modDescriptor envTimesOut.modsBase "m"] 60)).success
      = false :=
  timeout_budgets envTimesOut "m" "tiger.conf" false false rfl rfl
    (fun _ => rfl) (fun _ => rfl)

end TigerMCP
